import Mathlib

/-!
Verification development for the `uri-geo` library (RFC 5870 geo URI parser
and composer).

The parser in `include/pfs/rfc5870/parser.hpp` is embedded shallowly: the
input character range `[first, last)` is a `List Char` together with the
bound `last = s.length`, and an iterator is an index `pos : Nat`.  Each
`advance_*` function of the source takes its cursor by reference and returns
a `Bool`; here it is a pure function returning the success flag together
with the final cursor value.  Sink callbacks (`on_latitude`, `on_crslabel`,
...) are recorded as an explicit event list in the order they fire.
Numbers (`double` in the source) are modelled as `ℚ`; all numeric literals
appearing in this development are exactly representable, and `strtod`
overflow (`errc.bad_number`) is therefore never produced by the model.

Two loops of the source never terminate on some inputs (the empty-bodied
value scan in `advance_parameter`, and the `*parameter` loop in `advance_p`
whose body can neither succeed nor move the cursor); functions that can run
into them return an `Option`, with `none` denoting non-termination.
-/

namespace rfc5870

/-- Error codes of `include/pfs/rfc5870/error.hpp` (`enum class errc`):
the enumeration has exactly the kinds `success` and `bad_number`. -/
inductive errc where
  | success
  | bad_number
deriving DecidableEq, Repr

/-- `is_equals_ignorecase`: compares two characters after `std::toupper`
(ASCII case folding under the default locale). -/
def is_equals_ignorecase (a b : Char) : Bool :=
  a.toUpper == b.toUpper

/-- `is_digit`: decimal digit 0..9. -/
def is_digit (ch : Char) : Bool :=
  ch == '0' || ch == '1' || ch == '2' || ch == '3' || ch == '4' ||
  ch == '5' || ch == '6' || ch == '7' || ch == '8' || ch == '9'

/-- `is_alpha`: `'\x41'..'\x5A'` or `'\x61'..'\x7A'` (A-Z / a-z). -/
def is_alpha (ch : Char) : Bool :=
  (0x41 ≤ ch.toNat && ch.toNat ≤ 0x5A) || (0x61 ≤ ch.toNat && ch.toNat ≤ 0x7A)

/-- `is_hexdigit`: decimal digit or a-f / A-F. -/
def is_hexdigit (ch : Char) : Bool :=
  is_digit ch ||
  ch == 'a' || ch == 'b' || ch == 'c' || ch == 'd' || ch == 'e' || ch == 'f' ||
  ch == 'A' || ch == 'B' || ch == 'C' || ch == 'D' || ch == 'E' || ch == 'F'

/-- `is_p_unreserved`: one of "[" / "]" / ":" / "&" / "+" / "$". -/
def is_p_unreserved (ch : Char) : Bool :=
  ch == '[' || ch == ']' || ch == ':' || ch == '&' || ch == '+' || ch == '$'

/-- `is_unreserved`: alphanum or mark ("-" / "_" / "." / "!" / "~" / "*" /
"'" / "(" / ")").  The apostrophe is written `Char.ofNat 39`. -/
def is_unreserved (ch : Char) : Bool :=
  is_alpha ch || is_digit ch ||
  ch == '-' || ch == '_' || ch == '.' || ch == '!' || ch == '~' ||
  ch == '*' || ch == Char.ofNat 39 || ch == '(' || ch == ')'

/-- `to_digit`: base-`radix` digit value of `ch`, or `-1` if impossible. -/
def to_digit (ch : Char) (radix : Int) : Int :=
  if radix < 2 || radix > 36 then -1
  else
    let digit : Int :=
      if 48 ≤ ch.toNat && ch.toNat ≤ 57 then (ch.toNat : Int) - 48
      else if 97 ≤ ch.toNat && ch.toNat ≤ 122 then (ch.toNat : Int) - 97 + 10
      else if 65 ≤ ch.toNat && ch.toNat ≤ 90 then (ch.toNat : Int) - 65 + 10
      else -2
    if digit == -2 then -1
    else if digit ≥ radix then -1
    else digit

/-- `compare_and_assign(a, b)`: assigns `b` to the caller's cursor and
returns `true` when `a ≠ b`, otherwise leaves the cursor and returns
`false`.  Result: (returned flag, final cursor value). -/
def compare_and_assign (a b : Nat) : Bool × Nat :=
  if a ≠ b then (true, b) else (false, a)

/-- `advance_pct_encoded`: `pct-encoded = "%" HEXDIG HEXDIG`.  The bounded
`for` loop (two iterations, multipliers 16 and 1) is unrolled.  Result:
(success, final cursor, decoded value written through `result`). -/
def advance_pct_encoded (s : List Char) (pos : Nat) : Bool × Nat × Int :=
  let last := s.length
  if pos ≥ last then (false, pos, 0)
  else if s.getD pos ' ' ≠ '%' then (false, pos, 0)
  else
    let p := pos + 1
    if p ≥ last then (false, pos, 0)
    else if ¬ is_hexdigit (s.getD p ' ') then (false, pos, 0)
    else
      let hi := to_digit (s.getD p ' ') 16
      let p := p + 1
      if p ≥ last then (false, pos, 0)
      else if ¬ is_hexdigit (s.getD p ' ') then (false, pos, 0)
      else
        let lo := to_digit (s.getD p ' ') 16
        let p := p + 1
        let r := compare_and_assign pos p
        (r.1, r.2, hi * 16 + lo)

/-- Loop of `advance_sequence_ignorecase`:
`while (p != last && first2 != last2 && is_equals_ignorecase(*p++, *first2++));`.
Both iterators are incremented before the comparison outcome is known, so on
a mismatch the loop exits with `p` and `first2` already advanced past the
mismatching pair.  Returns the final `p` and the remaining literal. -/
def seq_ignorecase_loop (s : List Char) (p : Nat) :
    List Char → Nat × List Char
  | [] => (p, [])
  | c :: rest =>
    if p ≥ s.length then (p, c :: rest)
    else if is_equals_ignorecase (s.getD p ' ') c then
      seq_ignorecase_loop s (p + 1) rest
    else (p + 1, rest)

/-- `advance_sequence_ignorecase`: advances through the input matching the
literal `lit` case-insensitively; reports success iff the literal iterator
reached its end (`first2 == last2`), committing the cursor in that case. -/
def advance_sequence_ignorecase (s : List Char) (pos : Nat) (lit : List Char) :
    Bool × Nat :=
  let r := seq_ignorecase_loop s pos lit
  if r.2 = [] then (true, r.1) else (false, pos)

/-- `advance_geo_scheme`: `geo-scheme = "geo"`, case-insensitive. -/
def advance_geo_scheme (s : List Char) (pos : Nat) : Bool × Nat :=
  if pos ≥ s.length then (false, pos)
  else advance_sequence_ignorecase s pos ['g', 'e', 'o']

/-- Numeric value of a list of decimal digit characters. -/
def digits_value (l : List Char) : Nat :=
  l.foldl (fun a c => a * 10 + (c.toNat - 48)) 0

/-- `advance_number`: `num = [ "-" ] pnum`, `pnum = 1*DIGIT [ "." 1*DIGIT ]`.
The source accumulates the matched text in `numstr` and converts it with
`strtod`; the model computes the same rational value directly (exact, so the
`errc.bad_number` overflow path of `strtoreal` is never taken).  Result:
(success, final cursor, value written through `pnum`, error code). -/
def advance_number (s : List Char) (pos : Nat) (allow_negative_sign : Bool) :
    Bool × Nat × ℚ × errc :=
  let last := s.length
  if pos ≥ last then (false, pos, 0, errc.success)
  else
    let neg := allow_negative_sign && s.getD pos ' ' == '-'
    let p1 := if neg then pos + 1 else pos
    let int_digits := (s.drop p1).takeWhile is_digit
    let p2 := p1 + int_digits.length
    if p2 = p1 then (false, pos, 0, errc.success)   -- no digit found
    else
      let sgn : ℚ := if neg then -1 else 1
      if p2 < last ∧ s.getD p2 ' ' = '.' then
        let p3 := p2 + 1
        if p3 ≥ last then (false, pos, 0, errc.success)
        else if ¬ is_digit (s.getD p3 ' ') then (false, pos, 0, errc.success)
        else
          let frac_digits := (s.drop p3).takeWhile is_digit
          let p4 := p3 + frac_digits.length
          let q : ℚ := sgn * ((digits_value int_digits : ℚ) +
            (digits_value frac_digits : ℚ) / ((10 : ℚ) ^ frac_digits.length))
          let r := compare_and_assign pos p4
          (r.1, r.2, q, errc.success)
      else
        let q : ℚ := sgn * (digits_value int_digits : ℚ)
        let r := compare_and_assign pos p2
        (r.1, r.2, q, errc.success)

/-- Sink callback invocations of `simple_api_interface`, recorded in the
order they fire (`on_latitude`, `on_longitude`, `on_altitude`,
`on_crslabel`, `on_uval`, `on_parameter`). -/
inductive Event where
  | latitude (n : ℚ)
  | longitude (n : ℚ)
  | altitude (n : ℚ)
  | crslabel (s : List Char)
  | uval (n : ℚ)
  | parameter (name value : List Char)
deriving DecidableEq, Repr

/-- `advance_coordinates`: `coordinates = coord-a "," coord-b [ "," coord-c ]`.
Mirrors the source exactly: after the longitude, the two "Accepted short
list" branches `return true` *without* the final `compare_and_assign`, so a
success without an altitude leaves the caller's cursor at its input
position.  Result: (success, final cursor, fired events). -/
def advance_coordinates (s : List Char) (pos : Nat) :
    Bool × Nat × List Event :=
  let last := s.length
  if pos ≥ last then (false, pos, [])
  else
    let r1 := advance_number s pos true
    if ¬ r1.1 then (false, pos, [])
    else
      let p := r1.2.1
      let ev1 := [Event.latitude r1.2.2.1]
      if p ≥ last then (false, pos, ev1)
      else if s.getD p ' ' ≠ ',' then (false, pos, ev1)
      else
        let r2 := advance_number s (p + 1) true
        if ¬ r2.1 then (false, pos, ev1)
        else
          let p := r2.2.1
          let ev2 := ev1 ++ [Event.longitude r2.2.2.1]
          if p ≥ last then (true, pos, ev2)          -- accepted short list
          else if s.getD p ' ' ≠ ',' then (true, pos, ev2)  -- accepted short list
          else
            let r3 := advance_number s (p + 1) true
            if ¬ r3.1 then (false, pos, ev2)
            else
              let ev3 := ev2 ++ [Event.altitude r3.2.2.1]
              let r := compare_and_assign pos r3.2.1
              (r.1, r.2, ev3)

/-- `advance_labeltext`: `labeltext = 1*( alphanum / "-" )`.  Result:
(success, final cursor, text written through `labeltext`). -/
def advance_labeltext (s : List Char) (pos : Nat) :
    Bool × Nat × List Char :=
  let last := s.length
  if pos ≥ last then (false, pos, [])
  else if ¬ (s.getD pos ' ' == '-' || is_alpha (s.getD pos ' ') ||
      is_digit (s.getD pos ' ')) then (false, pos, [])
  else
    let more := ((s.drop (pos + 1)).takeWhile
      (fun c => c == '-' || is_alpha c || is_digit c)).length
    let p := pos + 1 + more
    let text := (s.drop pos).take (p - pos)
    let r := compare_and_assign pos p
    (r.1, r.2, text)

/-- `advance_crsp`: `crsp = ";crs=" crslabel`, `crslabel = "wgs84" / labeltext`.
When the label matches the literal `wgs84` case-insensitively the sink
receives the lowercase constant; otherwise the label text is delivered
verbatim (this source revision applies no case folding to `labeltext`). -/
def advance_crsp (s : List Char) (pos : Nat) :
    Bool × Nat × List Event :=
  let last := s.length
  if pos ≥ last then (false, pos, [])
  else
    let r1 := advance_sequence_ignorecase s pos [';', 'c', 'r', 's', '=']
    if ¬ r1.1 then (false, pos, [])
    else
      let p := r1.2
      let r2 := advance_sequence_ignorecase s p ['w', 'g', 's', '8', '4']
      if r2.1 then
        let r := compare_and_assign pos r2.2
        (r.1, r.2, [Event.crslabel ['w', 'g', 's', '8', '4']])
      else
        let r3 := advance_labeltext s p
        if ¬ r3.1 then (false, pos, [])
        else
          let r := compare_and_assign pos r3.2.1
          (r.1, r.2, [Event.crslabel r3.2.2])

/-- `advance_uncp`: `uncp = ";u=" uval`, `uval = pnum` (no negative sign). -/
def advance_uncp (s : List Char) (pos : Nat) :
    Bool × Nat × List Event × errc :=
  let last := s.length
  if pos ≥ last then (false, pos, [], errc.success)
  else
    let r1 := advance_sequence_ignorecase s pos [';', 'u', '=']
    if ¬ r1.1 then (false, pos, [], errc.success)
    else
      let r2 := advance_number s r1.2 false
      if ¬ r2.1 then (false, pos, [], r2.2.2.2)
      else
        let r := compare_and_assign pos r2.2.1
        (r.1, r.2, [Event.uval r2.2.2.1], r2.2.2.2)

/-- Scan loop of `advance_pvalue`.  One iteration consumes a
`p-unreserved`/`unreserved` character, or on `'%'` first advances past the
percent sign and only then calls `advance_pct_encoded` (which itself
expects a leading `'%'` at the already-advanced position — kept exactly as
the source has it).  `none` models the `return false` on a failed
percent-sequence; `some p` is loop exit.  The fuel starts at
`s.length - p`, which the loop (consuming at least one character per
iteration) can never exhaust before `p` reaches the end bound. -/
def pvalue_loop (s : List Char) : Nat → Nat → Option Nat
  | 0, p => some p
  | fuel + 1, p =>
    if p ≥ s.length then some p
    else
      let c := s.getD p ' '
      if is_p_unreserved c || is_unreserved c then pvalue_loop s fuel (p + 1)
      else if c == '%' then
        let r := advance_pct_encoded s (p + 1)
        if ¬ r.1 then none
        else pvalue_loop s fuel r.2.1
      else some p

/-- `advance_pvalue`: `pvalue = 1*paramchar`.  The captured value is the raw
matched text `[last_pos, p)` (no percent-decoding in this revision). -/
def advance_pvalue (s : List Char) (pos : Nat) :
    Bool × Nat × List Char :=
  if pos ≥ s.length then (false, pos, [])
  else
    match pvalue_loop s (s.length - pos) pos with
    | none => (false, pos, [])
    | some p =>
      let value := (s.drop pos).take (p - pos)
      let r := compare_and_assign pos p
      (r.1, r.2, value)

/-- `advance_parameter`: `parameter = ";" pname [ "=" pvalue ]` as this
revision actually implements it.  After `";"` and `pname` it *requires* an
`"="` with at least one character after it, and then runs
`while (p != last) { }` — a loop with an empty body over a cursor it never
moves, which does not terminate (`none`).  The trailing
`compare_and_assign` is unreachable, so the function never returns `true`,
never moves the caller's cursor, and never fires `on_parameter`. -/
def advance_parameter (s : List Char) (pos : Nat) : Option (Bool × Nat) :=
  let last := s.length
  if pos ≥ last then some (false, pos)
  else if s.getD pos ' ' ≠ ';' then some (false, pos)
  else
    let p := pos + 1
    if p ≥ last then some (false, pos)
    else
      let r1 := advance_labeltext s p
      if ¬ r1.1 then some (false, pos)
      else
        let p := r1.2.1
        if p ≥ last then some (false, pos)
        else if s.getD p ' ' ≠ '=' then some (false, pos)
        else if p + 1 ≥ last then some (false, pos)
        else none   -- while (p != last) { } with p != last: never terminates

/-- `advance_p`: `p = [ crsp ] [ uncp ] *parameter`.  The `*parameter` loop
is `while (pos != last) advance_parameter(pos, last, context, ec);`.
`advance_parameter` never succeeds and never moves the cursor
(`advance_parameter_no_progress` below), so each round of the loop either
diverges inside `advance_parameter` or repeats at the same cursor forever;
the loop terminates only when the cursor is already at the end bound when
it is reached.  `none` models non-termination. -/
def advance_p (s : List Char) (pos : Nat) :
    Option (Bool × Nat × List Event) :=
  let r1 := advance_crsp s pos            -- optional
  let r2 := advance_uncp s r1.2.1         -- optional
  if r2.2.1 = s.length then some (true, r2.2.1, r1.2.2 ++ r2.2.2.1)
  else none

/-- `advance_geo_path`: `geo-path = coordinates p`. -/
def advance_geo_path (s : List Char) (pos : Nat) :
    Option (Bool × Nat × List Event) :=
  let r1 := advance_coordinates s pos
  if ¬ r1.1 then some (false, pos, r1.2.2)
  else
    match advance_p s r1.2.1 with
    | none => none
    | some r2 =>
      if ¬ r2.1 then some (false, pos, r1.2.2 ++ r2.2.2)
      else
        let r := compare_and_assign pos r2.2.1
        some (r.1, r.2, r1.2.2 ++ r2.2.2)

/-- `advance_geo_uri`: `geo-URI = geo-scheme ":" geo-path`.  The source
line `if (p != ':')` compares the iterator itself with the character and is
ill-formed C++; it is modelled as the evident intent `*p != ':'`. -/
def advance_geo_uri (s : List Char) (pos : Nat) :
    Option (Bool × Nat × List Event) :=
  let r1 := advance_geo_scheme s pos
  if ¬ r1.1 then some (false, pos, [])
  else
    let p := r1.2
    if p ≥ s.length then some (false, pos, [])
    else if s.getD p ' ' ≠ ':' then some (false, pos, [])
    else
      match advance_geo_path s (p + 1) with
      | none => none
      | some r2 =>
        if ¬ r2.1 then some (false, pos, r2.2.2)
        else
          let r := compare_and_assign pos r2.2.1
          some (r.1, r.2, r2.2.2)

/-- Top-level `parse(first, last, context)`: starts at `first` (index 0),
returns the advanced cursor on success and `first` otherwise.  The source
call site omits the `error_code` argument of `advance_geo_uri` (it does not
compile as written); it is modelled as the evident intent of passing one
through.  `none` models non-termination; otherwise the result is the
returned iterator paired with the events the sink received. -/
def parse (s : List Char) : Option (Nat × List Event) :=
  match advance_geo_uri s 0 with
  | none => none
  | some r => if r.1 then some (r.2.1, r.2.2) else some (0, r.2.2)

end rfc5870

namespace geo

/-!
Embedding of `include/pfs/uri/geo/geo.hpp` (`pfs::uri::geo::basic_uri`,
instantiated as the default `uri = basic_uri<double, std::string, map>`
with `map = std::map`) and of the two composers
(`include/pfs/uri/geo/composer.hpp` and `include/pfs/rfc5870/composer.hpp`;
the latter includes a `geo.hpp` of its own namespace that is not in the
tree — its `basic_uri` is the same value object, so both composers are
embedded over the one structure below).

`std::map<std::string, std::string>` is modelled as an association list
kept sorted by the key comparator `operator<` (lexicographic by character
code); `insert` and `find` descend by that comparator exactly as the tree
does, and iteration is in list (= key) order.
-/

/-- Lexicographic `operator<` on `std::string`. -/
def lt_string : List Char → List Char → Bool
  | [], [] => false
  | [], _ :: _ => true
  | _ :: _, [] => false
  | a :: as, b :: bs =>
    if a.toNat < b.toNat then true
    else if b.toNat < a.toNat then false
    else lt_string as bs

/-- `insert_map` over `std::map`: `m.insert(make_pair(key, value))` —
descends by the comparator and has no effect when an equivalent key is
already present (`std::map::insert` never overwrites). -/
def insert_map (key value : List Char) :
    List (List Char × List Char) → List (List Char × List Char)
  | [] => [(key, value)]
  | (k, v) :: rest =>
    if lt_string key k then (key, value) :: (k, v) :: rest
    else if lt_string k key then (k, v) :: insert_map key value rest
    else (k, v) :: rest   -- equivalent key present: keep the stored entry

/-- `std::map::find` by comparator descent: `none` if no equivalent key. -/
def find_map (key : List Char) :
    List (List Char × List Char) → Option (List Char)
  | [] => none
  | (k, v) :: rest =>
    if lt_string key k then none
    else if lt_string k key then find_map key rest
    else some v

/-- `wgs84_string()`: the string built by `construct_string`
(`{'w','g','s','8','4'}`). -/
def wgs84_string : List Char := ['w', 'g', 's', '8', '4']

/-- `basic_uri` members (`_latitude`, `_longitude`, `_altitude`,
`_crslabel`, `_uval`, `_parameters`); the optional fields pair the value
with its presence flag exactly as the `std::pair<number_type, bool>`
members do. -/
structure basic_uri where
  m_latitude : ℚ
  m_longitude : ℚ
  m_altitude : ℚ × Bool
  m_crslabel : List Char
  m_uval : ℚ × Bool
  m_parameters : List (List Char × List Char)
deriving DecidableEq, Repr

/-- Default-constructed `basic_uri`: the in-class member initializers. -/
def default_uri : basic_uri :=
  { m_latitude := 0
    m_longitude := 0
    m_altitude := (0, false)
    m_crslabel := wgs84_string
    m_uval := (0, false)
    m_parameters := [] }

/-- `latitude()` accessor. -/
def basic_uri.latitude (u : basic_uri) : ℚ := u.m_latitude

/-- `set_latitude(n)`. -/
def basic_uri.set_latitude (u : basic_uri) (n : ℚ) : basic_uri :=
  { u with m_latitude := n }

/-- `longitude()` accessor. -/
def basic_uri.longitude (u : basic_uri) : ℚ := u.m_longitude

/-- `set_longitude(n)`. -/
def basic_uri.set_longitude (u : basic_uri) (n : ℚ) : basic_uri :=
  { u with m_longitude := n }

/-- `altitude()` accessor (`_altitude.first`). -/
def basic_uri.altitude (u : basic_uri) : ℚ := u.m_altitude.1

/-- `set_altitude(n)`: sets `_altitude.first = n; _altitude.second = true`. -/
def basic_uri.set_altitude (u : basic_uri) (n : ℚ) : basic_uri :=
  { u with m_altitude := (n, true) }

/-- `clear_altitude()`: `_altitude.first = 0; _altitude.second = false`. -/
def basic_uri.clear_altitude (u : basic_uri) : basic_uri :=
  { u with m_altitude := (0, false) }

/-- `has_altitude()` (`_altitude.second`). -/
def basic_uri.has_altitude (u : basic_uri) : Bool := u.m_altitude.2

/-- `crs()` accessor. -/
def basic_uri.crs (u : basic_uri) : List Char := u.m_crslabel

/-- `set_crs(s)`. -/
def basic_uri.set_crs (u : basic_uri) (s : List Char) : basic_uri :=
  { u with m_crslabel := s }

/-- `is_wgs84()`: `_crslabel == wgs84_string()` — exact (case-sensitive)
string equality. -/
def basic_uri.is_wgs84 (u : basic_uri) : Bool :=
  u.m_crslabel == wgs84_string

/-- `uncertainty()` accessor (`_uval.first`). -/
def basic_uri.uncertainty (u : basic_uri) : ℚ := u.m_uval.1

/-- `set_uncertainty(n)`: `_uval.first = n; _uval.second = true`. -/
def basic_uri.set_uncertainty (u : basic_uri) (n : ℚ) : basic_uri :=
  { u with m_uval := (n, true) }

/-- `clear_uncertainty()`: `_uval.first = 0; _uval.second = false`. -/
def basic_uri.clear_uncertainty (u : basic_uri) : basic_uri :=
  { u with m_uval := (0, false) }

/-- `has_uncertainty()` (`_uval.second`). -/
def basic_uri.has_uncertainty (u : basic_uri) : Bool := u.m_uval.2

/-- `insert(pname, pvalue)`: delegates to `insert_map` on `_parameters`
(the behaviour is identical to inserting into the map type). -/
def basic_uri.insert (u : basic_uri) (pname pvalue : List Char) : basic_uri :=
  { u with m_parameters := insert_map pname pvalue u.m_parameters }

/-- `has_parameter(pname)`: `_parameters.find(pname) != end()`. -/
def basic_uri.has_parameter (u : basic_uri) (pname : List Char) : Bool :=
  (find_map pname u.m_parameters).isSome

/-- `count()`: `_parameters.size()`. -/
def basic_uri.count (u : basic_uri) : Nat := u.m_parameters.length

/-- `parameter(pname)`: the stored value, or the empty string if absent. -/
def basic_uri.parameter (u : basic_uri) (pname : List Char) : List Char :=
  match find_map pname u.m_parameters with
  | some v => v
  | none => []

/-- Decimal digits of a natural number (fuel-driven; fuel `n + 1` always
suffices since `n / 10 < n` for `n ≥ 10`). -/
def fmt_nat_aux : Nat → Nat → List Char
  | 0, _ => []
  | fuel + 1, n =>
    if n < 10 then [Char.ofNat (48 + n)]
    else fmt_nat_aux fuel (n / 10) ++ [Char.ofNat (48 + n % 10)]

/-- Decimal rendering of a natural number. -/
def fmt_nat (n : Nat) : List Char := fmt_nat_aux (n + 1) n

/-- `k` decimal digits of `v`, zero-padded on the left. -/
def fmt_nat_pad : Nat → Nat → List Char
  | 0, _ => []
  | k + 1, v => fmt_nat_pad k (v / 10) ++ [Char.ofNat (48 + v % 10)]

/-- Least `k` with `1 ≤ k ≤ 6` such that `rem * 10 ^ k` is divisible by
`den`, if any. -/
def frac_exponent (rem den : Nat) : Option Nat :=
  (List.range 7).find? (fun k => k ≠ 0 && rem * 10 ^ k % den == 0)

/-- Model of `out << n` for a `double` under the "C" locale (the composers
imbue the stream with `std::locale("C")` via `imbue_C_guard`): default
`ostream` formatting with precision 6.  Exact for the decimal values
arising in this development (at most six fractional digits, magnitude below
`10^6`); for other rationals the fractional part is truncated at six
digits, a case no theorem below exercises. -/
def fmt_number (q : ℚ) : List Char :=
  let sgn : List Char := if q < 0 then ['-'] else []
  let a := q.num.natAbs
  let b := q.den
  let ip := a / b
  let rem := a % b
  if rem = 0 then sgn ++ fmt_nat ip
  else
    match frac_exponent rem b with
    | some k => sgn ++ fmt_nat ip ++ ['.'] ++ fmt_nat_pad k (rem * 10 ^ k / b)
    | none => sgn ++ fmt_nat ip ++ ['.'] ++ fmt_nat_pad 6 (rem * 10 ^ 6 / b)

/-- One parameter as emitted by the `foreach_parameter` callback of
`geo::compose` (and identically by the rfc5870 `operator<<`):
`";" + name`, and `"=" + value` only when the value is non-empty. -/
def compose_parameter (acc : List Char) (p : List Char × List Char) :
    List Char :=
  acc ++ [';'] ++ p.1 ++ (if p.2 ≠ [] then ['='] ++ p.2 else [])

/-- `composer_policy_flag::ignore_wgs84_crs` is the only flag of the
one-bit `composer_policy_set`; a policy set is therefore its value.
`relaxed_composer_policy()` sets the flag. -/
def relaxed_composer_policy : Bool := true

/-- `strict_composer_policy()`: all flags clear. -/
def strict_composer_policy : Bool := false

/-- `pfs::uri::geo::compose(out, u, ctx)` with the default
`composer_interface` callbacks (`out << n` and `out << s`).
`ignore_wgs84_crs` is the policy's single flag.  The crs condition is the
source's own:
`if (!(u.is_wgs84() && !ctx.policy.test(ignore_wgs84_crs)))` —
note the negated `test`, which emits the crs clause for a WGS-84 URI
precisely when the "do not output CRS if it equals to WGS84" flag IS set. -/
def compose (ignore_wgs84_crs : Bool) (u : basic_uri) : List Char :=
  let head := [ 'g', 'e', 'o', ':' ] ++ fmt_number u.latitude ++ [','] ++
    fmt_number u.longitude
  let alt := if u.has_altitude then [','] ++ fmt_number u.altitude else []
  let crs := if ¬ (u.is_wgs84 && ¬ ignore_wgs84_crs) then
      [';', 'c', 'r', 's', '='] ++ u.crs
    else []
  let unc := if u.has_uncertainty then [';', 'u', '='] ++
      fmt_number u.uncertainty
    else []
  let params := if u.count > 0 then
      u.m_parameters.foldl compose_parameter []
    else []
  head ++ alt ++ crs ++ unc ++ params

/-- `pfs::uri::geo::compose(uri)`: streams through `operator <<`, which
uses a default-constructed `composer_interface` (relaxed policy). -/
def compose_default (u : basic_uri) : List Char :=
  compose relaxed_composer_policy u

/-- The plain rfc5870 composer (`include/pfs/rfc5870/composer.hpp`
`operator <<`): no policy, the crs clause is emitted iff `!u.is_wgs84()`. -/
def compose_rfc5870 (u : basic_uri) : List Char :=
  let head := [ 'g', 'e', 'o', ':' ] ++ fmt_number u.latitude ++ [','] ++
    fmt_number u.longitude
  let alt := if u.has_altitude then [','] ++ fmt_number u.altitude else []
  let crs := if ¬ u.is_wgs84 then [';', 'c', 'r', 's', '='] ++ u.crs else []
  let unc := if u.has_uncertainty then [';', 'u', '='] ++
      fmt_number u.uncertainty
    else []
  let params := if u.count > 0 then
      u.m_parameters.foldl compose_parameter []
    else []
  head ++ alt ++ crs ++ unc ++ params

end geo

/-!
Supporting lemmas.
-/

/-- `advance_parameter` can only return failure at the caller's own cursor:
every terminating path of the source function is a `return false` taken
before the cursor commit (the empty-bodied scan loop makes the trailing
`compare_and_assign` unreachable).  This justifies the modelling of the
`*parameter` loop in `advance_p`: a loop body that neither succeeds nor
moves the cursor can never make progress. -/
theorem advance_parameter_no_progress (s : List Char) (pos : Nat)
    (r : Bool × Nat) (h : rfc5870.advance_parameter s pos = some r) :
    r = (false, pos) := by
  unfold rfc5870.advance_parameter at h
  split_ifs at h <;> try simp_all
  split_ifs at h <;> simp_all

/-- `insert_map` on a key already present (as found by the same comparator
descent `find_map` performs) leaves the map unchanged. -/
theorem insert_map_existing_key (key value v : List Char) :
    ∀ m, geo.find_map key m = some v → geo.insert_map key value m = m := by
  intro m
  induction m with
  | nil => intro h; simp [geo.find_map] at h
  | cons kv rest ih =>
    intro h
    obtain ⟨k, w⟩ := kv
    by_cases h1 : geo.lt_string key k = true
    · simp [geo.find_map, h1] at h
    · by_cases h2 : geo.lt_string k key = true
      · simp only [geo.find_map, h1, h2, if_false, if_true,
          Bool.false_eq_true, ite_false, ite_true] at h
        simp [geo.insert_map, h1, h2, ih h]
      · simp [geo.insert_map, h1, h2]

/-!
Claim theorems.
-/

/-- C1: the spec claims `parse("geo:66,30;u=6.500;FOo=this%2dthat;Bar")`
succeeds consuming the whole input with latitude 66, longitude 30, no
altitude, uncertainty 6.5 and parameters foo = "this-that" (percent-decoded,
lowercased) and bar = "".  On the code the call never returns: after the
coordinates (whose success does not commit the cursor) the `*parameter`
loop of `advance_p` makes no progress, and `advance_parameter` never fires
`on_parameter` at all.  This theorem evaluates the embedded parser at the
claimed input: the parse does not terminate (`none`). -/
theorem C1_parse_example_never_returns :
    rfc5870.parse ("geo:66,30;u=6.500;FOo=this%2dthat;Bar".toList) = none := by
  decide

/-- C2: the spec claims every grammar advancer terminates, in particular
`advance_p` returns on every input and the top-level `parse` always
returns.  On the code, `advance_p` loops forever whenever text remains
after the optional crsp/uncp clauses (its loop body `advance_parameter`
never succeeds and never moves the cursor), and `parse` of the plain URI
"geo:1,2" never returns (the coordinates' success does not commit the
cursor, so `advance_p` starts before the latitude with text remaining). -/
theorem C2_advance_p_never_returns :
    rfc5870.advance_p (";x".toList) 0 = none ∧
    rfc5870.parse ("geo:1,2".toList) = none := by
  constructor <;> decide

/-- C3: the spec claims each advancer moves the caller's cursor strictly
forward past the recognized production on success, in particular
`advance_coordinates` on "48.2010,16.3695" leaves the cursor past the
longitude (position 15).  On the code the two "accepted short list"
branches return success without the final `compare_and_assign`, so the
caller's cursor stays at the input position 0. -/
theorem C3_coordinates_success_does_not_commit_cursor :
    (rfc5870.advance_coordinates ("48.2010,16.3695".toList) 0).1 = true ∧
    (rfc5870.advance_coordinates ("48.2010,16.3695".toList) 0).2.1 = 0 := by
  constructor <;> decide

/-- C4: the spec claims `advance_sequence_ignorecase` succeeds only when
every literal character, including the last one, matched, so
`advance_geo_scheme` accepts exactly the case-insensitive prefix "geo".
On the code both iterators of
`is_equals_ignorecase(*p++, *first2++)` are incremented before the
comparison outcome is known, so a mismatch on the *last* literal character
still exhausts the literal iterator and the function reports success with
the cursor advanced: the scheme advancer accepts "gex". -/
theorem C4_sequence_ignorecase_accepts_last_char_mismatch :
    rfc5870.advance_geo_scheme ("gex".toList) 0 = (true, 3) ∧
    rfc5870.advance_sequence_ignorecase ("gex".toList) 0 ("geo".toList) =
      (true, 3) := by
  constructor <;> decide

/-- C5: the spec claims a duplicate crs/u clause or named parameter is
reported as a semantic-constraint error kind distinct from a grammar
mismatch, recorded on the parse context, and that the top-level parse fails
when it is set.  The code has no such error kind — `errc` consists of
exactly `success` and `bad_number` — the context carries no crs-seen/u-seen
state, and on the duplicate-crs input the parse never returns at all
(the `*parameter` loop makes no progress), recording nothing. -/
theorem C5_no_semantic_constraint_error_kind :
    (∀ e : rfc5870.errc, e = rfc5870.errc.success ∨
      e = rfc5870.errc.bad_number) ∧
    rfc5870.parse ("geo:1,2;crs=wgs84;crs=other".toList) = none := by
  constructor
  · intro e
    cases e
    · exact Or.inl rfl
    · exact Or.inr rfl
  · decide

/-- C6: the spec claims the policy-aware composer omits the ";crs=" clause
exactly when the CRS equals "wgs84" and `ignore_wgs84_crs` is set (the
default relaxed policy).  The source condition
`!(u.is_wgs84() && !ctx.policy.test(ignore_wgs84_crs))` negates the flag
test, inverting the documented sense: for a WGS-84 URI the relaxed policy
*emits* ";crs=wgs84" and the strict policy omits it, contradicting the
flag's own doc comment "do not output CRS if it equals to WGS84". -/
theorem C6_crs_omission_policy_inverted :
    geo.compose geo.relaxed_composer_policy
        ((geo.default_uri.set_latitude 66).set_longitude 30) =
      ("geo:66,30;crs=wgs84".toList) ∧
    geo.compose geo.strict_composer_policy
        ((geo.default_uri.set_latitude 66).set_longitude 30) =
      ("geo:66,30".toList) := by
  constructor <;> decide

/-- C7: a trailing comma with no altitude digits is a failure:
`advance_coordinates` on "48.2010,16.3695," returns failure with the
cursor left at the input position 0, and the top-level parse of
"geo:48.2010,16.3695," terminates and returns its `first` argument
(position 0, nothing consumed), which the parse contract treats as
failure. -/
theorem C7_trailing_comma_without_altitude_fails :
    (rfc5870.advance_coordinates ("48.2010,16.3695,".toList) 0).1 = false ∧
    (rfc5870.advance_coordinates ("48.2010,16.3695,".toList) 0).2.1 = 0 ∧
    (rfc5870.parse ("geo:48.2010,16.3695,".toList)).map Prod.fst =
      some 0 := by
  refine ⟨by decide, by decide, by decide⟩

/-- C8 counterexample: the claim states `is_wgs84()` is true for a CRS
stored via `set_crs` with the mixed-case spelling "WGS84"; on the code
`is_wgs84()` compares the stored label to "wgs84" exactly, so it is false
there. -/
theorem C8_counterexample_set_crs_mixed_case :
    geo.basic_uri.is_wgs84 (geo.default_uri.set_crs ("WGS84".toList)) =
      false := by
  decide

/-- C8 (amended): `is_wgs84()` returns true exactly when the stored CRS
label is exactly the lowercase string "wgs84" — so it holds for a
default-constructed URI (no CRS ever specified), and for a CRS captured
from parsing a ";crs=" clause spelling wgs84 in any letter case (the
parser delivers the lowercase constant to the sink), but `set_crs` with a
mixed-case spelling such as "WGS84" makes it false. -/
theorem C8_is_wgs84_exact_equality :
    (∀ (u : geo.basic_uri) (s : List Char),
      (u.set_crs s).is_wgs84 = (s == geo.wgs84_string)) ∧
    geo.default_uri.is_wgs84 = true ∧
    rfc5870.advance_crsp (";crs=WGS84".toList) 0 =
      (true, 10, [rfc5870.Event.crslabel ("wgs84".toList)]) := by
  refine ⟨fun u s => rfl, rfl, by decide⟩

/-- C9: for the default `std::map`-backed `basic_uri`, inserting a
parameter whose name is already present leaves the previously stored value
and `count()` unchanged (first insertion wins, `std::map::insert` never
overwrites), and `has_parameter(name)` stays true. -/
theorem C9_insert_existing_name_first_wins
    (u : geo.basic_uri) (name value : List Char)
    (h : u.has_parameter name = true) :
    (u.insert name value).parameter name = u.parameter name ∧
    (u.insert name value).count = u.count ∧
    (u.insert name value).has_parameter name = true := by
  obtain ⟨v, hv⟩ : ∃ v, geo.find_map name u.m_parameters = some v := by
    unfold geo.basic_uri.has_parameter at h
    cases hf : geo.find_map name u.m_parameters with
    | none => rw [hf] at h; simp at h
    | some v => exact ⟨v, rfl⟩
  have heq := insert_map_existing_key name value v u.m_parameters hv
  unfold geo.basic_uri.insert
  rw [heq]
  exact ⟨rfl, rfl, h⟩

/-- C9 witness: the theorem applied at a concrete URI that already holds a
"foo" parameter with value "val", re-inserting "foo" with value "other". -/
theorem C9_insert_existing_name_first_wins_witness :
    (geo.default_uri.insert ("foo".toList) ("val".toList)).has_parameter
      ("foo".toList) = true ∧
    (((geo.default_uri.insert ("foo".toList) ("val".toList)).insert
        ("foo".toList) ("other".toList)).parameter ("foo".toList) =
      (geo.default_uri.insert ("foo".toList) ("val".toList)).parameter
        ("foo".toList) ∧
     ((geo.default_uri.insert ("foo".toList) ("val".toList)).insert
        ("foo".toList) ("other".toList)).count =
      (geo.default_uri.insert ("foo".toList) ("val".toList)).count ∧
     ((geo.default_uri.insert ("foo".toList) ("val".toList)).insert
        ("foo".toList) ("other".toList)).has_parameter ("foo".toList) =
      true) :=
  ⟨by decide, C9_insert_existing_name_first_wins _ _ _ (by decide)⟩

/-- C10: each optional-field mutator touches only its own value/presence
pair: `set_altitude`/`clear_altitude` leave latitude, longitude, the CRS
label, the parameter map and the uncertainty pair unchanged, and
`set_uncertainty`/`clear_uncertainty` symmetrically; after `set_X(n)`,
`has_X()` is true with `X() = n`, and after `clear_X()`, `has_X()` is
false with `X() = 0`. -/
theorem C10_optional_field_mutators_frame :
    ∀ (u : geo.basic_uri) (n : ℚ),
      ((u.set_altitude n).latitude = u.latitude ∧
       (u.set_altitude n).longitude = u.longitude ∧
       (u.set_altitude n).crs = u.crs ∧
       (u.set_altitude n).m_parameters = u.m_parameters ∧
       (u.set_altitude n).uncertainty = u.uncertainty ∧
       (u.set_altitude n).has_uncertainty = u.has_uncertainty ∧
       (u.set_altitude n).has_altitude = true ∧
       (u.set_altitude n).altitude = n) ∧
      (u.clear_altitude.latitude = u.latitude ∧
       u.clear_altitude.longitude = u.longitude ∧
       u.clear_altitude.crs = u.crs ∧
       u.clear_altitude.m_parameters = u.m_parameters ∧
       u.clear_altitude.uncertainty = u.uncertainty ∧
       u.clear_altitude.has_uncertainty = u.has_uncertainty ∧
       u.clear_altitude.has_altitude = false ∧
       u.clear_altitude.altitude = 0) ∧
      ((u.set_uncertainty n).latitude = u.latitude ∧
       (u.set_uncertainty n).longitude = u.longitude ∧
       (u.set_uncertainty n).crs = u.crs ∧
       (u.set_uncertainty n).m_parameters = u.m_parameters ∧
       (u.set_uncertainty n).altitude = u.altitude ∧
       (u.set_uncertainty n).has_altitude = u.has_altitude ∧
       (u.set_uncertainty n).has_uncertainty = true ∧
       (u.set_uncertainty n).uncertainty = n) ∧
      (u.clear_uncertainty.latitude = u.latitude ∧
       u.clear_uncertainty.longitude = u.longitude ∧
       u.clear_uncertainty.crs = u.crs ∧
       u.clear_uncertainty.m_parameters = u.m_parameters ∧
       u.clear_uncertainty.altitude = u.altitude ∧
       u.clear_uncertainty.has_altitude = u.has_altitude ∧
       u.clear_uncertainty.has_uncertainty = false ∧
       u.clear_uncertainty.uncertainty = 0) :=
  fun _ _ =>
    ⟨⟨rfl, rfl, rfl, rfl, rfl, rfl, rfl, rfl⟩,
     ⟨rfl, rfl, rfl, rfl, rfl, rfl, rfl, rfl⟩,
     ⟨rfl, rfl, rfl, rfl, rfl, rfl, rfl, rfl⟩,
     ⟨rfl, rfl, rfl, rfl, rfl, rfl, rfl, rfl⟩⟩
